import Mathlib

/-!
Verification of the observability/correlation core of the orion proxy:
- the streaming body instrumentation decorator
  (src/orion-lib/src/body/body_with_metrics.rs),
- the request-id policy engine (src/orion-tracing/src/request_id.rs),
- the span lifecycle holder (src/orion-tracing/src/span_state.rs).

The Rust code is shallowly embedded: pure functions become Lean functions,
the mutex-guarded single-use completion slot becomes explicit state passing
(the mutex linearizes every interleaving of triggers into a sequence), and
the u64 byte counter is a natural number reduced modulo 2 ^ 64, faithful to
the wrapping semantics of AtomicU64 fetch_add.
-/

namespace Orion

/-- The modulus 2 ^ 64 of the wrapping u64 byte counter. -/
def U64MOD : Nat := 18446744073709551616

/-- BodyKind from src/orion-lib/src/body/response_flags.rs (external to the
core files): a classification key distinguishing request vs response
bodies. Only its identity matters here. -/
inductive BodyKind where
  | request
  | response
deriving DecidableEq

/-- One result of polling the inner body: the shallow embedding of
Poll.Option.Result.Frame, Error. A data frame is represented by the
byte length of its chunk, which is all the instrumentation reads from
it (frame.data_ref followed by remaining); trailer frames carry no data.
eos is Ready None, the natural end of the stream. -/
inductive PollOut (E : Type) where
  | pending
  | data (len : Nat)
  | trailer
  | eos
  | error (e : E)
deriving DecidableEq

/-- Whether a poll result terminates the stream (natural end or error). -/
def PollOut.is_terminal {E : Type} : PollOut E → Bool
  | .eos => true
  | .error _ => true
  | _ => false

/-- MetricsState from body_with_metrics.rs: the BodyKind tag, the AtomicU64
byte counter, and the single-use completion slot. The boxed closure is
modelled by a presence flag; its invocations are recorded as events
carrying the pair it is called with. -/
structure MetricsState where
  kind : BodyKind
  bytes_counter : Nat
  on_complete_present : Bool
deriving DecidableEq

/-- The fresh state built by BodyWithMetrics::new: zero counter, closure
present. -/
def new_state (kind : BodyKind) : MetricsState :=
  MetricsState.mk kind 0 true

/-- trigger_on_complete from body_with_metrics.rs: lock the slot, and if the
closure is still there, take it and call it with the current counter value
and the given flags. Returns the new state together with the list of
callback invocations performed (empty or a singleton). The flags type F
abstracts ResponseFlags, which is external to the core files. -/
def trigger_on_complete {F : Type} (st : MetricsState) (flags : F) :
    MetricsState × List (Nat × F) :=
  if st.on_complete_present then
    (MetricsState.mk st.kind st.bytes_counter false, [(st.bytes_counter, flags)])
  else
    (st, [])

/-- Result of one poll_frame step: successor state, callback invocations,
and the poll result returned to the caller. -/
structure StepResult (E F : Type) where
  state : MetricsState
  events : List (Nat × F)
  out : PollOut E
deriving DecidableEq

/-- BodyWithMetrics::poll_frame (metrics_enabled): poll the inner body; on a
data frame add its length to the wrapping u64 counter; on Ready None
trigger completion with the default flags; on an error trigger completion
with the classified flags (classify abstracts the external
ResponseFlags::from on (error, BodyKind)); on Pending do nothing; in every
case return the inner poll result unchanged. -/
def poll_frame {E F : Type} (classify : E → BodyKind → F) (dflt : F)
    (st : MetricsState) (p : PollOut E) : StepResult E F :=
  match p with
  | .data len =>
      StepResult.mk
        (MetricsState.mk st.kind ((st.bytes_counter + len) % U64MOD) st.on_complete_present)
        [] p
  | .trailer => StepResult.mk st [] p
  | .pending => StepResult.mk st [] p
  | .eos =>
      let r := trigger_on_complete st dflt
      StepResult.mk r.1 r.2 p
  | .error e =>
      let r := trigger_on_complete st (classify e st.kind)
      StepResult.mk r.1 r.2 p

/-- Result of running a sequence of polls: final state, callback invocations
in order, and the poll results handed to the consumer in order. -/
structure RunResult (E F : Type) where
  state : MetricsState
  events : List (Nat × F)
  outs : List (PollOut E)
deriving DecidableEq

/-- Run the instrumented body over a finite sequence of inner poll results. -/
def run_polls {E F : Type} (classify : E → BodyKind → F) (dflt : F)
    (st : MetricsState) : List (PollOut E) → RunResult E F
  | [] => RunResult.mk st [] []
  | p :: ps =>
      let r := poll_frame classify dflt st p
      let rest := run_polls classify dflt r.state ps
      RunResult.mk rest.state (r.events ++ rest.events) (r.out :: rest.outs)

/-- DropGuard::drop: attempt to consume the completion slot with the default
flags. -/
def drop_guard {F : Type} (dflt : F) (st : MetricsState) :
    MetricsState × List (Nat × F) :=
  trigger_on_complete st dflt

/-- Run an arbitrary finite sequence of completion triggers (natural end of
stream, terminal error, or guard destruction are all just
trigger_on_complete calls with some flags), collecting the callback
invocations. -/
def run_triggers {F : Type} (st : MetricsState) : List F → MetricsState × List (Nat × F)
  | [] => (st, [])
  | f :: fs =>
      let r := trigger_on_complete st f
      let rest := run_triggers r.1 fs
      (rest.1, r.2 ++ rest.2)

/-- Sum of the byte lengths of the data frames in a poll sequence; trailer
frames and Pending polls contribute nothing. -/
def sum_data {E : Type} : List (PollOut E) → Nat
  | [] => 0
  | .data len :: ps => len + sum_data ps
  | _ :: ps => sum_data ps

/-- The flags a terminal poll result makes poll_frame pass to
trigger_on_complete: the default flags at natural end of stream, the
classified flags on an error; none for non-terminal results. -/
def terminal_flag {E F : Type} (classify : E → BodyKind → F) (dflt : F)
    (kind : BodyKind) : PollOut E → Option F
  | .eos => some dflt
  | .error e => some (classify e kind)
  | _ => none

/-- The disabled-mode BodyWithMetrics::poll_frame (metrics_disabled): a pure
passthrough of the inner poll result, with no state at all. -/
def poll_frame_disabled {E : Type} (p : PollOut E) : PollOut E := p

/-!
Request-id policy engine, from src/orion-tracing/src/request_id.rs.
A header value is an opaque byte string, modelled as a list of byte
values. The generated UUID is abstracted as an explicit fresh value, and
the external uuid crate's parser as a boolean oracle parameter.
-/

/-- An HTTP header value: a sequence of bytes. -/
abbrev HeaderValue := List Nat

/-- http HeaderValue to_str succeeds iff every byte is visible ASCII
(32 to 126) or horizontal tab (9); this is the behavior of the http
crate the source calls into. -/
def to_str_ok (v : HeaderValue) : Bool :=
  v.all (fun b => (decide (32 ≤ b) && decide (b ≤ 126)) || b == 9)

/-- RequestId: Propagate carries an identifier forwarded on the wire,
Internal one used only for in-process correlation. -/
inductive RequestId where
  | Propagate (v : HeaderValue)
  | Internal (v : HeaderValue)
deriving DecidableEq

/-- RequestId::to_value: the identifier value of either variant. -/
def RequestId.to_value : RequestId → HeaderValue
  | .Propagate v => v
  | .Internal v => v

/-- Whether a RequestId is the Propagate variant. -/
def RequestId.isPropagate : RequestId → Bool
  | .Propagate _ => true
  | .Internal _ => false

/-- An HTTP request, reduced to what the policy engine touches: the
X-Request-ID header slot, plus an opaque remainder (body and all other
headers), which the engine never modifies. -/
structure Request (α : Type) where
  x_request_id : Option HeaderValue
  rest : α
deriving DecidableEq

/-- An HTTP response, reduced likewise. -/
structure Response (α : Type) where
  x_request_id : Option HeaderValue
  rest : α
deriving DecidableEq

/-- The informational log events emitted by the request-id code. -/
inductive LogEvent where
  | info_invalid_request_id (raw : HeaderValue)
deriving DecidableEq

/-- RequestIdManager: the immutable configuration of the policy engine. -/
structure RequestIdManager where
  generate_request_id : Bool
  preserve_external_request_id : Bool
  always_set_request_id_in_response : Bool
deriving DecidableEq

/-- RequestId::from_request: read the X-Request-ID header; keep it only when
it decodes as a string (to_str) and that string parses as a UUID
(uuid_ok abstracts uuid Uuid::parse_str over the decoded bytes); when the
parse fails an informational log line is emitted inside the filter
closure, while a to_str failure is absorbed by unwrap_or(false) with no
log. A retained value that is empty is dropped; otherwise the result is
a Propagate identifier. Returns the identifier and the log events. -/
def RequestId.from_request {α : Type} (uuid_ok : HeaderValue → Bool)
    (req : Request α) : Option RequestId × List LogEvent :=
  match req.x_request_id with
  | none => (none, [])
  | some v =>
      if to_str_ok v then
        if uuid_ok v then
          if v.isEmpty then (none, []) else (some (RequestId.Propagate v), [])
        else (none, [LogEvent.info_invalid_request_id v])
      else (none, [])

/-- Step 1 of RequestIdManager::apply_policy: the match choosing the
authoritative id and whether it was freshly generated. tracing_feature
models the cfg feature tracing: with it on, the catch-all arm generates
(generated = true) and the access-log and none arms do not exist; with it
off, the access-log arm generates with generated = false and the last arm
yields none. fresh models the value Self::generate_new_id would return. -/
def RequestIdManager.choose_authoritative (m : RequestIdManager)
    (tracing_feature : Bool) (fresh : HeaderValue) (access_log_enabled : Bool)
    (incoming : Option RequestId) : Option HeaderValue × Bool :=
  match incoming with
  | some id =>
      if m.preserve_external_request_id then (some id.to_value, false)
      else if m.generate_request_id then (some fresh, true)
      else if tracing_feature then (some fresh, true)
      else if access_log_enabled then (some fresh, false)
      else (none, false)
  | none =>
      if m.generate_request_id then (some fresh, true)
      else if tracing_feature then (some fresh, true)
      else if access_log_enabled then (some fresh, false)
      else (none, false)

/-- Step 2 of apply_policy: whether the id must be propagated. -/
def RequestIdManager.should_propagate_header (m : RequestIdManager)
    (incoming : Option RequestId) : Bool :=
  (incoming.isSome && m.preserve_external_request_id) || m.generate_request_id

/-- RequestIdManager::apply_policy: choose the authoritative id, decide
propagation, mutate the request header (insert when propagating a
generated id, remove when not propagating an incoming id, otherwise leave
untouched), and build the resulting RequestId (Propagate when
propagating, Internal otherwise, none when no authoritative id). -/
def RequestIdManager.apply_policy {α : Type} (m : RequestIdManager)
    (tracing_feature : Bool) (fresh : HeaderValue) (req : Request α)
    (access_log_enabled : Bool) (incoming : Option RequestId) :
    Request α × Option RequestId :=
  let ag := m.choose_authoritative tracing_feature fresh access_log_enabled incoming
  let authoritative_id := ag.1
  let is_generated := ag.2
  let sp := m.should_propagate_header incoming
  let req2 :=
    if sp then
      if is_generated then
        match authoritative_id with
        | some a => Request.mk (some a) req.rest
        | none => req
      else req
    else if incoming.isSome then Request.mk none req.rest
    else req
  let req_id :=
    if sp then authoritative_id.map RequestId.Propagate
    else authoritative_id.map RequestId.Internal
  (req2, req_id)

/-- RequestIdManager::apply_to: when always_set_request_id_in_response is
set and an identifier value is supplied, overwrite the response
X-Request-ID header with it; otherwise leave the response untouched. -/
def RequestIdManager.apply_to {α : Type} (m : RequestIdManager)
    (resp : Response α) (req_id : Option HeaderValue) : Response α :=
  if m.always_set_request_id_in_response then
    match req_id with
    | some id => Response.mk (some id) resp.rest
    | none => resp
  else resp

/-- Spec-side restatement of the claim C3 priority order (worded from the
spec, to be compared with choose_authoritative): incoming value when
present and preserve_external, generated false; else fresh when generate,
generated true; else fresh when the tracing capability is enabled,
generated true; else fresh when access_log_enabled, generated false; else
none. -/
def spec_authoritative (m : RequestIdManager) (tracing_feature : Bool)
    (fresh : HeaderValue) (access_log_enabled : Bool)
    (incoming : Option RequestId) : Option HeaderValue × Bool :=
  if incoming.isSome && m.preserve_external_request_id then
    (incoming.map RequestId.to_value, false)
  else if m.generate_request_id then (some fresh, true)
  else if tracing_feature then (some fresh, true)
  else if access_log_enabled then (some fresh, false)
  else (none, false)

/-- Spec-side restatement of claim C3 step 4: Propagate(authoritative) when
should_propagate, else Internal(authoritative), an absent authoritative
value yielding no identifier. -/
def spec_resulting_id (m : RequestIdManager) (tracing_feature : Bool)
    (fresh : HeaderValue) (access_log_enabled : Bool)
    (incoming : Option RequestId) : Option RequestId :=
  let a := (spec_authoritative m tracing_feature fresh access_log_enabled incoming).1
  if (incoming.isSome && m.preserve_external_request_id) || m.generate_request_id then
    a.map RequestId.Propagate
  else
    a.map RequestId.Internal

/-- Spec-side restatement of the claim C4 header mutation: if
should_propagate and the authoritative id was freshly generated, insert
it (the fresh value) overwriting any prior value; else if not
should_propagate and an incoming id was present, remove the header; in
every other case leave the request untouched. -/
def spec_header_mutation {α : Type} (m : RequestIdManager)
    (tracing_feature : Bool) (fresh : HeaderValue) (access_log_enabled : Bool)
    (incoming : Option RequestId) (req : Request α) : Request α :=
  let gen := (spec_authoritative m tracing_feature fresh access_log_enabled incoming).2
  let sp := (incoming.isSome && m.preserve_external_request_id) || m.generate_request_id
  if sp && gen then Request.mk (some fresh) req.rest
  else if !sp && incoming.isSome then Request.mk none req.rest
  else req

/-- Spec-side restatement of claim C7: if always_set_in_response and an
identifier of any kind is present, overwrite the response header with its
value; otherwise no mutation. -/
def spec_apply_to {α : Type} (m : RequestIdManager) (resp : Response α)
    (rid : Option RequestId) : Response α :=
  if m.always_set_request_id_in_response && rid.isSome then
    Response.mk (rid.map RequestId.to_value) resp.rest
  else resp

/-!
Span lifecycle holder, from src/orion-tracing/src/span_state.rs.
-/

/-- A tracing span: an identity and whether it has been ended. Standing in
for the external opentelemetry BoxedSpan, of which only end is called. -/
structure Span where
  sid : Nat
  ended : Bool
deriving DecidableEq

/-- Span::end on the external span: mark it ended. -/
def Span.end_span (s : Span) : Span := Span.mk s.sid true

/-- SpanState: two independently locked optional span slots. -/
structure SpanState where
  server_span : Option Span
  client_span : Option Span
deriving DecidableEq

/-- SpanState::end: lock the server slot and end its span if present, then
lock the client slot and end its span if present. Returns the new state
and the identities of the spans ended, in order. -/
def SpanState.end_spans (s : SpanState) : SpanState × List Nat :=
  let server2 :=
    match s.server_span with
    | some sp => (some sp.end_span, [sp.sid])
    | none => (none, ([] : List Nat))
  let client2 :=
    match s.client_span with
    | some sp => (some sp.end_span, [sp.sid])
    | none => (none, ([] : List Nat))
  (SpanState.mk server2.1 client2.1, server2.2 ++ client2.2)

/-- Spec-side restatement of claim C8: ending ends exactly the populated
slots, leaving each slot populated by its ended span. -/
def spec_end (s : SpanState) : SpanState :=
  SpanState.mk (s.server_span.map Span.end_span) (s.client_span.map Span.end_span)

/-- The two slots of a SpanState. -/
inductive Slot where
  | server
  | client
deriving DecidableEq

/-- Lock and span operations observable while SpanState::end runs. -/
inductive LockEvent where
  | acquire (s : Slot)
  | release (s : Slot)
  | end_span_in (s : Slot)
deriving DecidableEq

/-- The sequence of lock and span operations SpanState::end performs, by
Rust scope semantics: the function locks the server slot into a guard
variable, ends the server span if present, then binds a second guard
variable of the same name to the client lock. The second let shadows the
first but does not drop it: a shadowed value lives until the end of the
enclosing scope. So the client lock is acquired while the server lock is
still held, and at the end of the function the two guards are dropped in
reverse declaration order, client first, then server. -/
def SpanState.end_lock_trace (s : SpanState) : List LockEvent :=
  [LockEvent.acquire Slot.server]
    ++ (if s.server_span.isSome then [LockEvent.end_span_in Slot.server] else [])
    ++ [LockEvent.acquire Slot.client]
    ++ (if s.client_span.isSome then [LockEvent.end_span_in Slot.client] else [])
    ++ [LockEvent.release Slot.client, LockEvent.release Slot.server]

/-- Index of the first occurrence of an event in a trace (length of the
trace when absent). -/
def idx_of_event (e : LockEvent) : List LockEvent → Nat
  | [] => 0
  | x :: xs => if x = e then 0 else idx_of_event e xs + 1

/-!
Concrete instances of the abstract collaborators (error type, flags type,
classifier, uuid parse oracle) used to exercise the model at concrete
inputs. Flags are booleans: false is the default no-error classification,
true the classification of an error.
-/

/-- A concrete classifier: every error maps to the flags value true. -/
def cls_bool : Unit → BodyKind → Bool := fun _ _ => true

/-- A concrete default flags value. -/
def dflt_bool : Bool := false

/-- A uuid oracle accepting everything. -/
def uuid_any : HeaderValue → Bool := fun _ => true

/-- A uuid oracle rejecting everything. -/
def uuid_none : HeaderValue → Bool := fun _ => false

/-!
## Helper lemmas about the body instrumentation
-/

theorem U64MOD_pos : 0 < U64MOD := by decide

theorem poll_frame_out {E F : Type} (classify : E → BodyKind → F) (dflt : F)
    (st : MetricsState) (p : PollOut E) :
    (poll_frame classify dflt st p).out = p := by
  cases p <;> rfl

theorem run_polls_outs {E F : Type} (classify : E → BodyKind → F) (dflt : F) :
    ∀ (script : List (PollOut E)) (st : MetricsState),
      (run_polls classify dflt st script).outs = script := by
  intro script
  induction script with
  | nil => intro st; rfl
  | cons p ps ih =>
      intro st
      simp [run_polls, poll_frame_out, ih]

theorem run_polls_no_terminal {E F : Type} (classify : E → BodyKind → F)
    (dflt : F) (kind : BodyKind) (pres : Bool) :
    ∀ (items : List (PollOut E)) (c : Nat), c < U64MOD →
      (∀ p ∈ items, p.is_terminal = false) →
      run_polls classify dflt (MetricsState.mk kind c pres) items
        = RunResult.mk (MetricsState.mk kind ((c + sum_data items) % U64MOD) pres)
            [] items := by
  intro items
  induction items with
  | nil =>
      intro c hc _
      simp [run_polls, sum_data, Nat.mod_eq_of_lt hc]
  | cons p ps ih =>
      intro c hc hall
      have hp := hall p (List.mem_cons_self p ps)
      have hps : ∀ q ∈ ps, q.is_terminal = false :=
        fun q hq => hall q (List.mem_cons_of_mem p hq)
      cases p with
      | pending =>
          simp only [run_polls, poll_frame]
          rw [ih c hc hps]
          simp [sum_data]
      | trailer =>
          simp only [run_polls, poll_frame]
          rw [ih c hc hps]
          simp [sum_data]
      | data len =>
          simp only [run_polls, poll_frame]
          rw [ih ((c + len) % U64MOD) (Nat.mod_lt _ U64MOD_pos) hps]
          have : ((c + len) % U64MOD + sum_data ps) % U64MOD
              = (c + (len + sum_data ps)) % U64MOD := by
            simp only [U64MOD]
            omega
          simp [sum_data, this]
      | eos => simp [PollOut.is_terminal] at hp
      | error e => simp [PollOut.is_terminal] at hp

theorem run_polls_append {E F : Type} (classify : E → BodyKind → F) (dflt : F) :
    ∀ (xs ys : List (PollOut E)) (st : MetricsState),
      run_polls classify dflt st (xs ++ ys)
        = RunResult.mk
            (run_polls classify dflt (run_polls classify dflt st xs).state ys).state
            ((run_polls classify dflt st xs).events
              ++ (run_polls classify dflt (run_polls classify dflt st xs).state ys).events)
            ((run_polls classify dflt st xs).outs
              ++ (run_polls classify dflt (run_polls classify dflt st xs).state ys).outs) := by
  intro xs
  induction xs with
  | nil => intro ys st; simp [run_polls]
  | cons p ps ih =>
      intro ys st
      simp only [List.cons_append, run_polls, List.append_eq]
      rw [ih ys (poll_frame classify dflt st p).state]
      simp

theorem trigger_consumed {F : Type} (st : MetricsState) (f : F)
    (h : st.on_complete_present = false) :
    trigger_on_complete st f = (st, []) := by
  simp [trigger_on_complete, h]

theorem run_triggers_consumed {F : Type} :
    ∀ (fs : List F) (st : MetricsState), st.on_complete_present = false →
      run_triggers st fs = (st, []) := by
  intro fs
  induction fs with
  | nil => intro st _; rfl
  | cons f fs ih =>
      intro st h
      simp [run_triggers, trigger_on_complete, h, ih st h]

theorem run_triggers_events_len {F : Type} :
    ∀ (fs : List F) (st : MetricsState), (run_triggers st fs).2.length ≤ 1 := by
  intro fs
  induction fs with
  | nil => intro st; simp [run_triggers]
  | cons f fs ih =>
      intro st
      cases hp : st.on_complete_present with
      | false =>
          rw [run_triggers_consumed (f :: fs) st hp]
          simp
      | true =>
          simp [run_triggers, trigger_on_complete, hp,
            run_triggers_consumed fs (MetricsState.mk st.kind st.bytes_counter false) rfl]

/-!
## Claims about the streaming body instrument
-/

/-- C1, counterexample to the claim as stated: the byte counter is a
wrapping u64 (AtomicU64 fetch_add), so two data frames of 2 ^ 63 bytes
each followed by natural end of stream make the completion callback
observe 0 bytes, not the true data-frame total 2 ^ 64. -/
theorem claim_C1_counterexample :
    (run_polls cls_bool dflt_bool (new_state BodyKind.response)
        [PollOut.data (2 ^ 63), PollOut.data (2 ^ 63), PollOut.eos]).events
      = [(0, dflt_bool)]
    ∧ (0 : Nat)
        ≠ sum_data ([PollOut.data (2 ^ 63), PollOut.data (2 ^ 63)] : List (PollOut Unit)) := by
  constructor
  · decide
  · decide

/-- C1 (amended): for every finite poll sequence of the instrumented body
ending in natural end of stream or a terminal error, whose data-frame byte
total stays below 2 ^ 64, the completion callback is invoked exactly once,
with byte count equal to the sum of the lengths of the data frames
produced before completion; trailer frames and Pending polls contribute
nothing. (Beyond 2 ^ 64 the wrapping u64 counter delivers the total
modulo 2 ^ 64.) -/
theorem claim_C1_completion_once_with_byte_total {E F : Type}
    (classify : E → BodyKind → F) (dflt : F) (kind : BodyKind)
    (items : List (PollOut E)) (t : PollOut E) (f : F)
    (hitems : ∀ p ∈ items, p.is_terminal = false)
    (ht : terminal_flag classify dflt kind t = some f)
    (hsum : sum_data items < U64MOD) :
    (run_polls classify dflt (new_state kind) (items ++ [t])).events
      = [(sum_data items, f)] := by
  rw [run_polls_append]
  have hrun := run_polls_no_terminal classify dflt kind true items 0 U64MOD_pos hitems
  rw [show new_state kind = MetricsState.mk kind 0 true from rfl, hrun]
  have hmod : (0 + sum_data items) % U64MOD = sum_data items := by
    rw [Nat.zero_add, Nat.mod_eq_of_lt hsum]
  cases t with
  | eos =>
      simp only [terminal_flag, Option.some.injEq] at ht
      subst ht
      simp [run_polls, poll_frame, trigger_on_complete, hmod, Nat.mod_eq_of_lt hsum]
  | error e =>
      simp only [terminal_flag, Option.some.injEq] at ht
      subst ht
      simp [run_polls, poll_frame, trigger_on_complete, hmod, Nat.mod_eq_of_lt hsum]
  | pending => simp [terminal_flag] at ht
  | data len => simp [terminal_flag] at ht
  | trailer => simp [terminal_flag] at ht

/-- Witness for C1 at a concrete multi-frame sequence: frames of 3 and 4
bytes, a Pending poll and a trailer frame, then natural end of stream. -/
theorem claim_C1_completion_once_with_byte_total_witness :
    (run_polls cls_bool dflt_bool (new_state BodyKind.response)
        ([PollOut.data 3, PollOut.pending, PollOut.trailer, PollOut.data 4]
          ++ [PollOut.eos])).events
      = [(7, dflt_bool)] :=
  claim_C1_completion_once_with_byte_total cls_bool dflt_bool BodyKind.response
    [PollOut.data 3, PollOut.pending, PollOut.trailer, PollOut.data 4]
    PollOut.eos dflt_bool (by decide) (by decide) (by decide)

/-- C2: for every sequence of completion triggers from a fresh completion
state (natural end of stream, terminal error and guard destruction are all
trigger_on_complete calls), the callback fires at most once; if the body
is dropped before reaching stream end (any number k of guard clones
dropped after a terminal-free poll run), the callback fires exactly once
with the default classification and the final byte count; and a trigger
on an already-consumed slot is a no-op. -/
theorem claim_C2_completion_at_most_once {E F : Type}
    (classify : E → BodyKind → F) (dflt : F) (kind : BodyKind)
    (fs : List F) (items : List (PollOut E)) (k : Nat)
    (st : MetricsState) (f : F)
    (hitems : ∀ p ∈ items, p.is_terminal = false) (hk : 1 ≤ k)
    (hst : st.on_complete_present = false) :
    (run_triggers (new_state kind) fs).2.length ≤ 1
    ∧ (run_triggers (run_polls classify dflt (new_state kind) items).state
          (List.replicate k dflt)).2
        = [(sum_data items % U64MOD, dflt)]
    ∧ trigger_on_complete st f = (st, []) := by
  refine ⟨run_triggers_events_len fs (new_state kind), ?_, trigger_consumed st f hst⟩
  have hrun := run_polls_no_terminal classify dflt kind true items 0 U64MOD_pos hitems
  rw [show new_state kind = MetricsState.mk kind 0 true from rfl, hrun]
  obtain ⟨j, rfl⟩ : ∃ j, k = j + 1 := by
    cases k with
    | zero => omega
    | succ j => exact ⟨j, rfl⟩
  rw [show j + 1 = 1 + j by omega, List.replicate_add]
  simp [run_triggers, trigger_on_complete, run_triggers_consumed, Nat.zero_add]

/-- Witness for C2: one 5-byte frame, then two guard drops; exactly one
callback with 5 bytes and the default classification, later triggers
no-ops. -/
theorem claim_C2_completion_at_most_once_witness :
    (run_triggers (new_state BodyKind.response) [true, false]).2.length ≤ 1
    ∧ (run_triggers
          (run_polls cls_bool dflt_bool (new_state BodyKind.response)
            [PollOut.data 5]).state
          (List.replicate 2 dflt_bool)).2
        = [(5 % U64MOD, dflt_bool)]
    ∧ trigger_on_complete (MetricsState.mk BodyKind.response 5 false) true
        = (MetricsState.mk BodyKind.response 5 false, []) :=
  claim_C2_completion_at_most_once cls_bool dflt_bool BodyKind.response
    [true, false] [PollOut.data 5] 2
    (MetricsState.mk BodyKind.response 5 false) true
    (by decide) (by decide) (by decide)

/-- C6: poll_frame of the instrumented body returns exactly the inner
body's poll result unchanged (same frame, same error value, same Pending
status, same end-of-stream timing), the disabled-mode variant is a pure
passthrough, and over any poll sequence the two variants hand the
consumer identical results: errors are never masked or altered. -/
theorem claim_C6_transparent_instrumentation {E F : Type}
    (classify : E → BodyKind → F) (dflt : F) (st : MetricsState)
    (p : PollOut E) (script : List (PollOut E)) :
    (poll_frame classify dflt st p).out = p
    ∧ poll_frame_disabled p = p
    ∧ (run_polls classify dflt st script).outs = script
    ∧ script.map poll_frame_disabled = script := by
  exact ⟨poll_frame_out classify dflt st p, rfl,
    run_polls_outs classify dflt script st, List.map_id script⟩

/-!
## Helper lemmas about the request-id policy engine
-/

theorem choose_authoritative_eq_spec (m : RequestIdManager)
    (tracing_feature : Bool) (fresh : HeaderValue) (access_log_enabled : Bool)
    (incoming : Option RequestId) :
    m.choose_authoritative tracing_feature fresh access_log_enabled incoming
      = spec_authoritative m tracing_feature fresh access_log_enabled incoming := by
  cases incoming with
  | none => simp [RequestIdManager.choose_authoritative, spec_authoritative]
  | some id =>
      cases hpe : m.preserve_external_request_id <;>
        simp [RequestIdManager.choose_authoritative, spec_authoritative, hpe]

/-!
## Claims about the request-id policy engine
-/

/-- C3: apply_policy chooses the authoritative identifier by the stated
priority order (incoming when present and preserved; else fresh when
generate; else fresh when the tracing capability is enabled; else fresh
when access_log_enabled with generated false; else none), and returns
Propagate(authoritative) when should_propagate, else
Internal(authoritative), an absent authoritative value yielding no
identifier. -/
theorem claim_C3_policy_priority_and_resulting_id {α : Type}
    (m : RequestIdManager) (tracing_feature : Bool) (fresh : HeaderValue)
    (req : Request α) (access_log_enabled : Bool)
    (incoming : Option RequestId) :
    m.choose_authoritative tracing_feature fresh access_log_enabled incoming
      = spec_authoritative m tracing_feature fresh access_log_enabled incoming
    ∧ (m.apply_policy tracing_feature fresh req access_log_enabled incoming).2
      = spec_resulting_id m tracing_feature fresh access_log_enabled incoming := by
  refine ⟨choose_authoritative_eq_spec m tracing_feature fresh access_log_enabled incoming, ?_⟩
  simp [RequestIdManager.apply_policy, RequestIdManager.should_propagate_header,
    spec_resulting_id,
    choose_authoritative_eq_spec m tracing_feature fresh access_log_enabled incoming]

/-- C4: apply_policy mutates the outbound request exactly as stated: the
header is inserted (with the freshly generated value, overwriting any
prior value) when should_propagate and the authoritative identifier was
generated; removed when not should_propagate and an incoming identifier
was present; in every other case the request is left untouched — in
particular a present incoming value that is preserved and propagated
leaves the request verbatim. -/
theorem claim_C4_header_mutation {α : Type}
    (m : RequestIdManager) (tracing_feature : Bool) (fresh : HeaderValue)
    (req : Request α) (access_log_enabled : Bool)
    (incoming : Option RequestId) :
    (m.apply_policy tracing_feature fresh req access_log_enabled incoming).1
      = spec_header_mutation m tracing_feature fresh access_log_enabled incoming req
    ∧ (incoming.isSome = true → m.preserve_external_request_id = true →
        (m.apply_policy tracing_feature fresh req access_log_enabled incoming).1 = req) := by
  rcases m with ⟨g, pe, al⟩
  cases incoming <;> cases g <;> cases pe <;> cases tracing_feature <;>
    cases access_log_enabled <;>
    refine ⟨?_, ?_⟩ <;>
    simp [RequestIdManager.apply_policy, RequestIdManager.choose_authoritative,
      RequestIdManager.should_propagate_header, spec_header_mutation,
      spec_authoritative]

/-- Witness for C4 at a concrete configuration: generate and preserve both
set, incoming identifier present — the request is left verbatim. -/
theorem claim_C4_header_mutation_witness :
    ((RequestIdManager.mk true true false).apply_policy true [1]
        (Request.mk (some [9]) (0 : Nat)) false
        (some (RequestId.Propagate [9]))).1
      = Request.mk (some [9]) (0 : Nat) :=
  (claim_C4_header_mutation (RequestIdManager.mk true true false) true [1]
      (Request.mk (some [9]) (0 : Nat)) false
      (some (RequestId.Propagate [9]))).2 (by decide) (by decide)

/-- C5, counterexample to the claim as stated, at the header value
consisting of the single byte 200, which is non-empty and is not a
well-formed UUID string (it does not even decode as a string). First,
from_request rejects it with no informational log line: the to_str
failure is absorbed by unwrap_or(false) before the logging closure can
run. Second, the outbound request is not the same as for an absent
header: with generate, preserve_external and the capability flags all
off, the full pipeline (from_request, then apply_policy) leaves the
malformed byte-200 header on the outbound request — apply_policy only
removes the header when an incoming identifier was actually ingested —
while the header-free request stays header-free. -/
theorem claim_C5_counterexample :
    to_str_ok [200] = false
    ∧ (RequestId.from_request uuid_none (Request.mk (some [200]) (0 : Nat))).1 = none
    ∧ (RequestId.from_request uuid_none (Request.mk (some [200]) (0 : Nat))).2 = []
    ∧ ((RequestIdManager.mk false false false).apply_policy false [1]
          (Request.mk (some [200]) (0 : Nat)) false
          (RequestId.from_request uuid_none (Request.mk (some [200]) (0 : Nat))).1).1
        = Request.mk (some [200]) (0 : Nat)
    ∧ ((RequestIdManager.mk false false false).apply_policy false [1]
          (Request.mk (none : Option HeaderValue) (0 : Nat)) false
          (RequestId.from_request uuid_none
            (Request.mk (none : Option HeaderValue) (0 : Nat))).1).1
        = Request.mk (none : Option HeaderValue) (0 : Nat) := by
  exact ⟨by decide, by decide, by decide, by decide, by decide⟩

/-- C5 (amended): an incoming header value counts as present only if it
decodes as a string, parses as a well-formed UUID, and is non-empty; any
malformed or empty value is treated as absent for identifier ingestion
(no identifier, and the same resulting identifier as a request carrying
no header at all) and never fails the request. The outbound request is
however not the same as in the no-header case: apply_policy removes the
header only when an incoming identifier was actually ingested, so a
malformed value survives verbatim on the outbound request unless it is
overwritten by a freshly generated propagated identifier. The rejection
is logged at informational level exactly when the value decodes as a
string but fails the UUID parse — a value that does not decode as a
string is rejected silently. -/
theorem claim_C5_malformed_treated_absent {α : Type}
    (uuid_ok : HeaderValue → Bool) (rest rest2 : α) (v w : HeaderValue)
    (m : RequestIdManager) (tf : Bool) (fresh : HeaderValue) (al : Bool)
    (hmal : ¬ (to_str_ok v = true ∧ uuid_ok v = true ∧ v ≠ [])) :
    ((RequestId.from_request uuid_ok (Request.mk (some w) rest2)).1.isSome
      ↔ (to_str_ok w = true ∧ uuid_ok w = true ∧ w ≠ []))
    ∧ (RequestId.from_request uuid_ok (Request.mk (some v) rest)).1 = none
    ∧ (m.apply_policy tf fresh (Request.mk (some v) rest) al
          (RequestId.from_request uuid_ok (Request.mk (some v) rest)).1).2
        = (m.apply_policy tf fresh (Request.mk (none : Option HeaderValue) rest) al
            (RequestId.from_request uuid_ok
              (Request.mk (none : Option HeaderValue) rest)).1).2
    ∧ (m.apply_policy tf fresh (Request.mk (some v) rest) al
          (RequestId.from_request uuid_ok (Request.mk (some v) rest)).1).1
        = (if m.should_propagate_header none
              && (m.choose_authoritative tf fresh al none).2
           then Request.mk (some fresh) rest
           else Request.mk (some v) rest)
    ∧ (RequestId.from_request uuid_ok (Request.mk (some v) rest)).2
        = (if to_str_ok v && !(uuid_ok v) then [LogEvent.info_invalid_request_id v]
           else []) := by
  have habsent : ∀ (u : HeaderValue) (r : α),
      ¬ (to_str_ok u = true ∧ uuid_ok u = true ∧ u ≠ []) →
      (RequestId.from_request uuid_ok (Request.mk (some u) r)).1 = none := by
    intro u r hu
    cases hcu : u with
    | nil => cases h1 : to_str_ok [] <;> cases h2 : uuid_ok [] <;>
        simp [RequestId.from_request, h1, h2]
    | cons b bs =>
        by_cases h1 : to_str_ok (b :: bs)
        · by_cases h2 : uuid_ok (b :: bs)
          · exact absurd ⟨h1, h2, by simp⟩ (hcu ▸ hu)
          · simp [RequestId.from_request, h1, h2]
        · simp [RequestId.from_request, h1]
  refine ⟨?_, habsent v rest hmal, ?_, ?_, ?_⟩
  · cases w with
    | nil => cases h1 : to_str_ok [] <;> cases h2 : uuid_ok [] <;>
        simp [RequestId.from_request, h1, h2]
    | cons b bs =>
        by_cases h1 : to_str_ok (b :: bs) <;> by_cases h2 : uuid_ok (b :: bs) <;>
          simp [RequestId.from_request, h1, h2]
  · rw [habsent v rest hmal,
      show (RequestId.from_request uuid_ok
          (Request.mk (none : Option HeaderValue) rest)).1 = none from rfl]
    rfl
  · rw [habsent v rest hmal]
    rcases m with ⟨g, pe, alw⟩
    cases g <;> cases pe <;> cases tf <;> cases al <;>
      simp [RequestIdManager.apply_policy, RequestIdManager.choose_authoritative,
        RequestIdManager.should_propagate_header]
  · rcases v with _ | ⟨b, bs⟩
    · by_cases h1 : to_str_ok [] <;> by_cases h2 : uuid_ok [] <;>
        simp [RequestId.from_request, h1, h2]
    · by_cases h1 : to_str_ok (b :: bs) <;> by_cases h2 : uuid_ok (b :: bs)
      · exact absurd ⟨h1, h2, by simp⟩ hmal
      · simp [RequestId.from_request, h1, h2]
      · simp [RequestId.from_request, h1, h2]
      · simp [RequestId.from_request, h1, h2]

/-- Witness for C5 at the concrete malformed byte-200 value (with a valid
presence case on the byte-97 value), in the configuration with generate,
preserve_external and the capability flags all off: the malformed header
survives on the outbound request. -/
theorem claim_C5_malformed_treated_absent_witness :
    ((RequestId.from_request uuid_none (Request.mk (some [97]) (0 : Nat))).1.isSome
      ↔ (to_str_ok [97] = true ∧ uuid_none [97] = true ∧ [97] ≠ ([] : List Nat)))
    ∧ (RequestId.from_request uuid_none (Request.mk (some [200]) (0 : Nat))).1 = none
    ∧ ((RequestIdManager.mk false false false).apply_policy false [1]
          (Request.mk (some [200]) (0 : Nat)) false
          (RequestId.from_request uuid_none (Request.mk (some [200]) (0 : Nat))).1).2
        = ((RequestIdManager.mk false false false).apply_policy false [1]
            (Request.mk (none : Option HeaderValue) (0 : Nat)) false
            (RequestId.from_request uuid_none
              (Request.mk (none : Option HeaderValue) (0 : Nat))).1).2
    ∧ ((RequestIdManager.mk false false false).apply_policy false [1]
          (Request.mk (some [200]) (0 : Nat)) false
          (RequestId.from_request uuid_none (Request.mk (some [200]) (0 : Nat))).1).1
        = (if (RequestIdManager.mk false false false).should_propagate_header none
              && ((RequestIdManager.mk false false false).choose_authoritative
                    false [1] false none).2
           then Request.mk (some [1]) (0 : Nat)
           else Request.mk (some [200]) (0 : Nat))
    ∧ (RequestId.from_request uuid_none (Request.mk (some [200]) (0 : Nat))).2
        = (if to_str_ok [200] && !(uuid_none [200])
           then [LogEvent.info_invalid_request_id [200]] else []) :=
  claim_C5_malformed_treated_absent uuid_none (0 : Nat) (0 : Nat) [200] [97]
    (RequestIdManager.mk false false false) false [1] false (by decide)

/-- C7: apply_to overwrites the response correlation header with the
identifier's value exactly when always_set_in_response holds and an
identifier of any kind (Propagate or Internal) is present; otherwise the
response is left completely unmodified. -/
theorem claim_C7_apply_to_response {α : Type} (m : RequestIdManager)
    (resp : Response α) (rid : Option RequestId) :
    m.apply_to resp (rid.map RequestId.to_value) = spec_apply_to m resp rid := by
  cases rid <;> cases has : m.always_set_request_id_in_response <;>
    simp [RequestIdManager.apply_to, spec_apply_to, has]

/-- C10: whenever from_request returns an identifier, it is the Propagate
variant — ingestion from the wire never produces an Internal identifier. -/
theorem claim_C10_from_request_always_propagate {α : Type}
    (uuid_ok : HeaderValue → Bool) (req : Request α) (id : RequestId)
    (h : (RequestId.from_request uuid_ok req).1 = some id) :
    id.isPropagate = true := by
  rcases req with ⟨x, rest⟩
  cases x with
  | none => simp [RequestId.from_request] at h
  | some v =>
      by_cases h1 : to_str_ok v
      · by_cases h2 : uuid_ok v
        · by_cases h3 : v.isEmpty
          · simp [RequestId.from_request, h1, h2, h3] at h
          · simp [RequestId.from_request, h1, h2, h3] at h
            rw [← h]
            rfl
        · simp [RequestId.from_request, h1, h2] at h
      · simp [RequestId.from_request, h1] at h

/-- Witness for C10 at a concrete request carrying the byte-97 header. -/
theorem claim_C10_from_request_always_propagate_witness :
    (RequestId.Propagate [97]).isPropagate = true :=
  claim_C10_from_request_always_propagate uuid_any
    (Request.mk (some [97]) (0 : Nat)) (RequestId.Propagate [97]) (by decide)

/-!
## Claims about the span lifecycle holder
-/

/-- C8: SpanState end ends exactly the populated slots: with both slots
populated it ends both spans (each slot keeps its span, now ended, and
both span identities are flushed in order); with both slots empty it is a
safe no-op; ending an absent slot is never an error. -/
theorem claim_C8_end_exactly_populated_slots (s : SpanState) :
    (s.end_spans).1 = spec_end s
    ∧ (s.end_spans).2
        = (s.server_span.map Span.sid).toList ++ (s.client_span.map Span.sid).toList
    ∧ (s.server_span = none ∧ s.client_span = none → s.end_spans = (s, [])) := by
  rcases s with ⟨os, oc⟩
  cases os <;> cases oc <;> simp [SpanState.end_spans, spec_end]

/-- Witness for C8 at the empty state: ending with both slots empty is a
no-op. -/
theorem claim_C8_end_exactly_populated_slots_witness :
    (SpanState.mk none none).end_spans = (SpanState.mk none none, []) :=
  (claim_C8_end_exactly_populated_slots (SpanState.mk none none)).2.2 ⟨rfl, rfl⟩

/-- C9, counterexample to the claim as stated: with both slots populated,
the operation trace of SpanState end acquires the client lock strictly
before the server lock is released — the server guard is shadowed, not
dropped, so the server lock release is in fact the last event of the
function. -/
theorem claim_C9_counterexample :
    (SpanState.mk (some (Span.mk 0 false)) (some (Span.mk 1 false))).end_lock_trace
      = [LockEvent.acquire Slot.server, LockEvent.end_span_in Slot.server,
         LockEvent.acquire Slot.client, LockEvent.end_span_in Slot.client,
         LockEvent.release Slot.client, LockEvent.release Slot.server]
    ∧ ¬ (idx_of_event (LockEvent.release Slot.server)
            ((SpanState.mk (some (Span.mk 0 false))
              (some (Span.mk 1 false))).end_lock_trace)
          < idx_of_event (LockEvent.acquire Slot.client)
            ((SpanState.mk (some (Span.mk 0 false))
              (some (Span.mk 1 false))).end_lock_trace)) := by
  exact ⟨by decide, by decide⟩

/-- C9 (amended): end acquires the server lock first and performs each
slot's bookkeeping under that slot's lock, but the server guard is only
shadowed by the client guard, not dropped: the client lock is acquired
while the server lock is still held, and the locks are released together
at the end of the function, client first, then the server lock as the
very last event. -/
theorem claim_C9_nested_lock_order (s : SpanState) :
    idx_of_event (LockEvent.acquire Slot.server) s.end_lock_trace = 0
    ∧ idx_of_event (LockEvent.acquire Slot.client) s.end_lock_trace
        < idx_of_event (LockEvent.release Slot.client) s.end_lock_trace
    ∧ idx_of_event (LockEvent.release Slot.client) s.end_lock_trace
        < idx_of_event (LockEvent.release Slot.server) s.end_lock_trace
    ∧ idx_of_event (LockEvent.release Slot.server) s.end_lock_trace
        = s.end_lock_trace.length - 1 := by
  rcases s with ⟨os, oc⟩
  cases os with
  | none =>
      cases oc with
      | none =>
          rw [show SpanState.end_lock_trace (SpanState.mk none none)
              = [LockEvent.acquire Slot.server, LockEvent.acquire Slot.client,
                 LockEvent.release Slot.client, LockEvent.release Slot.server]
            from rfl]
          decide
      | some c =>
          rw [show SpanState.end_lock_trace (SpanState.mk none (some c))
              = [LockEvent.acquire Slot.server, LockEvent.acquire Slot.client,
                 LockEvent.end_span_in Slot.client,
                 LockEvent.release Slot.client, LockEvent.release Slot.server]
            from rfl]
          decide
  | some sp =>
      cases oc with
      | none =>
          rw [show SpanState.end_lock_trace (SpanState.mk (some sp) none)
              = [LockEvent.acquire Slot.server, LockEvent.end_span_in Slot.server,
                 LockEvent.acquire Slot.client,
                 LockEvent.release Slot.client, LockEvent.release Slot.server]
            from rfl]
          decide
      | some c =>
          rw [show SpanState.end_lock_trace (SpanState.mk (some sp) (some c))
              = [LockEvent.acquire Slot.server, LockEvent.end_span_in Slot.server,
                 LockEvent.acquire Slot.client, LockEvent.end_span_in Slot.client,
                 LockEvent.release Slot.client, LockEvent.release Slot.server]
            from rfl]
          decide

end Orion
